import Mathlib

/-!
Verification of the SLA-breach prediction service (`app/model.py`,
`app/schemas.py`, `app/main.py`) against its specification.

Conventions of the embedding:
* Python floats are modelled by `ℚ` (the constants involved — 0.8, 0.6, 0.4,
  90, 70, 3, thresholds and test inputs — are all exactly representable).
* The fitted scikit-learn pipeline is opaque to the repository's own code:
  the code only calls `fit` / `predict_proba` / `predict` on it.  We model a
  fitted pipeline as the training set it was fitted on together with an
  opaque per-row probability function (`rawProba`), and state the library's
  shape contract (`predict_proba` returns one probability per learned class)
  as an explicit hypothesis where a theorem needs it.
* Python code that can raise is embedded with `Except` / `Option`.
* The module-level globals `_modelo`, `_modelo_timestamp`, `_modelo_accuracy`
  are threaded as an explicit `EstadoModelo`; the ambient world (clock,
  filesystem, database, pickled artifact) is an explicit `Entorno`.
-/

namespace SLA

/-- Risk classifier `calcular_nivel_riesgo` (app/model.py lines 28-44): maps a breach
probability to one of the four ordinal risk levels. -/
def calcular_nivel_riesgo (probabilidad : ℚ) : String :=
  if probabilidad ≥ 0.8 then "CRITICO"
  else if probabilidad ≥ 0.6 then "ALTO"
  else if probabilidad ≥ 0.4 then "MEDIO"
  else "BAJO"

/-- Factor explainer `identificar_factores_riesgo` (app/model.py lines 47-73): derives the
ordered list of human-readable risk factors.  The time-used percentage is
`dias_transcurridos / dias_umbral * 100` guarded by `dias_umbral > 0`
(else `0`), exactly as in line 60. -/
def identificar_factores_riesgo (dias_transcurridos dias_umbral probabilidad : ℚ) :
    List String :=
  let porcentaje_tiempo : ℚ :=
    if dias_umbral > 0 then dias_transcurridos / dias_umbral * 100 else 0
  let factores₁ : List String :=
    if porcentaje_tiempo ≥ 90 then ["Tiempo casi agotado (>90%)"]
    else if porcentaje_tiempo ≥ 70 then ["Tiempo elevado (>70%)"]
    else []
  let factores₂ : List String :=
    if probabilidad ≥ 0.8 then ["Alta probabilidad histórica de incumplimiento"] else []
  let factores₃ : List String :=
    if dias_umbral ≤ 3 then ["SLA con umbral muy corto"] else []
  factores₁ ++ factores₂ ++ factores₃

/-- A fitted scaler+classifier pipeline (the value of
`Pipeline([('scaler', ...), ('classifier', RandomForestClassifier(...))])`
after `fit`).  The repository's code treats it as opaque — it only ever calls
`fit`, `predict_proba` and `predict` — so it is modelled by the training set
it was fitted on together with an opaque per-row probability function
supplied by the library. -/
structure Pipeline where
  X_fit : List (List ℚ)
  y_fit : List ℤ
  rawProba : List ℚ → List ℚ

/-- Number of distinct classes the classifier was fitted on
(`len(classifier.classes_)`; scikit-learn's `predict_proba` returns one
column per such class). -/
def numClasses (m : Pipeline) : Nat := m.y_fit.dedup.length

/-- The scikit-learn shape contract: `predict_proba` yields one probability
per learned class for every input row. -/
def FormaProba (m : Pipeline) : Prop :=
  ∀ x : List ℚ, (m.rawProba x).length = numClasses m

/-- The parts of scikit-learn the training path calls: fitting a pipeline
(returning its row-probability function), `train_test_split` with
`test_size=0.2, random_state=42` (and stratification handled by the caller),
and the fitted classifier's hard `predict`. -/
structure SklearnLib where
  fit : List (List ℚ) → List ℤ → (List ℚ → List ℚ)
  split : List (List ℚ) → List ℤ →
    (List (List ℚ) × List (List ℚ) × List ℤ × List ℤ)
  predictClase : (List ℚ → List ℚ) → List ℚ → ℤ

/-- Shape contract for the library's `fit`: the fitted model's
`predict_proba` has one column per distinct training label. -/
def FormaFit (sk : SklearnLib) : Prop :=
  ∀ (X : List (List ℚ)) (y : List ℤ) (x : List ℚ),
    (sk.fit X y x).length = y.dedup.length

/-- The library's `sklearn.metrics.accuracy_score`: fraction of positions where prediction
equals truth. -/
def accuracy_score (y_true y_pred : List ℤ) : ℚ :=
  if y_true.length = 0 then 0
  else ((y_true.zip y_pred).countP (fun par => decide (par.1 = par.2)) : ℚ) /
    (y_true.length : ℚ)

/-- One row of the training data returned by `get_datos_entrenamiento`
(keys `dias_transcurridos`, `dias_umbral`, `id_rol`, `incumplio`). -/
structure RegistroEntrenamiento where
  dias_transcurridos : ℚ
  dias_umbral : ℚ
  id_rol : ℤ
  incumplio : ℤ

/-- Matrix `X_dummy` (app/model.py line 104): the hard-coded 5-row synthetic
feature matrix of the bootstrap model. -/
def X_dummy : List (List ℚ) := [[1, 5, 1], [2, 5, 1], [3, 5, 1], [4, 5, 1], [5, 5, 1]]

/-- Labels `y_dummy` (app/model.py line 105): the synthetic labels (0 = met,
1 = breached). -/
def y_dummy : List ℤ := [0, 0, 0, 1, 1]

/-- Trainer `entrenar_modelo` (app/model.py lines 76-144) with the training data
already fetched (the `datos is None` branch re-reads from the provider and
is resolved by the caller in this embedding).  Fewer than 50 records yields
the bootstrap pipeline fitted on the dummy data with accuracy 0.0; otherwise
the feature matrix and labels are built, split 80/20, the pipeline is fitted
on the training part and scored on the holdout part. -/
def entrenar_modelo (sk : SklearnLib) (datos : List RegistroEntrenamiento) :
    Pipeline × ℚ :=
  if datos.length < 50 then
    ({ X_fit := X_dummy, y_fit := y_dummy, rawProba := sk.fit X_dummy y_dummy }, 0)
  else
    let X := datos.map fun d => [d.dias_transcurridos, d.dias_umbral, (d.id_rol : ℚ)]
    let y := datos.map fun d => d.incumplio
    let partes := sk.split X y
    let X_train := partes.1
    let X_test := partes.2.1
    let y_train := partes.2.2.1
    let y_test := partes.2.2.2
    let m : Pipeline := { X_fit := X_train, y_fit := y_train,
                          rawProba := sk.fit X_train y_train }
    let y_pred := X_test.map (sk.predictClase m.rawProba)
    (m, accuracy_score y_test y_pred)

/-- The feature row `[dias_transcurridos, dias_umbral, id_rol]` built at
app/model.py line 215. -/
def caracteristicas (dias_transcurridos dias_umbral : ℚ) (id_rol : ℤ) : List ℚ :=
  [dias_transcurridos, dias_umbral, (id_rol : ℚ)]

/-- The probability-extraction expression of app/model.py line 219:
`probabilidades[0][1] if probabilidades.shape[1] > 1 else probabilidades[0][0]`
applied to the single output row; `none` models the `IndexError` raised when
the indexed column does not exist. -/
def extraerProbabilidad (fila : List ℚ) : Option ℚ :=
  if 1 < fila.length then fila.get? 1 else fila.get? 0

/-- The scoring core of `predecir` (app/model.py lines 215-224), given the
model handle obtained at line 213. -/
def predecir_con_modelo (m : Pipeline) (dias_transcurridos dias_umbral : ℚ)
    (id_rol : ℤ) : Option (ℚ × String × List String) :=
  match extraerProbabilidad
      (m.rawProba (caracteristicas dias_transcurridos dias_umbral id_rol)) with
  | none => none
  | some probabilidad =>
      some (probabilidad, calcular_nivel_riesgo probabilidad,
        identificar_factores_riesgo dias_transcurridos dias_umbral probabilidad)

/-- Observable events of the model store, used to state which side effects a
call performs: the staleness check of `get_modelo`, the attempt to
`joblib.load` the persisted artifact, its success, a completed
`entrenar_modelo` call, and a successful `joblib.dump`. -/
inductive Evento where
  | chequeo_recarga
  | carga_intentada
  | carga_exitosa
  | entrenamiento
  | guardado
deriving DecidableEq

/-- The module-level globals `_modelo`, `_modelo_timestamp`,
`_modelo_accuracy` (app/model.py lines 23-25). -/
structure EstadoModelo where
  modelo : Option Pipeline
  timestamp : Option ℚ
  accuracy : Option ℚ

/-- The ambient world of one call into the module: the clock, the settings,
the filesystem and pickled artifact, the training-data provider's reply, and
whether the library calls that the code wraps in `try` blocks raise.
`load_result = none` models `joblib.load` raising; `entrenar_lanza = true`
models the underlying fit raising inside `entrenar_modelo`;
`save_ok = false` models `joblib.dump` (or `os.makedirs`) raising. -/
structure Entorno where
  now : ℚ
  model_reload_interval : ℚ
  file_exists : Bool
  load_result : Option Pipeline
  sk : SklearnLib
  datos : List RegistroEntrenamiento
  entrenar_lanza : Bool
  save_ok : Bool

/-- The staleness condition of app/model.py lines 161-165:
`_modelo is None or _modelo_timestamp is None or
(now - _modelo_timestamp) > settings.model_reload_interval`. -/
def necesita_recargar (env : Entorno) (s : EstadoModelo) : Bool :=
  s.modelo.isNone || s.timestamp.isNone ||
    decide (env.now - s.timestamp.getD 0 > env.model_reload_interval)

/-- A call to `entrenar_modelo()` that may raise (`TrainingFailed`): when the
underlying fit raises, the exception propagates before any global is
assigned. -/
def entrenar_modelo_llamada (env : Entorno) : Except Unit (Pipeline × ℚ) :=
  if env.entrenar_lanza then Except.error ()
  else Except.ok (entrenar_modelo env.sk env.datos)

/-- The train-publish-save tail of `get_modelo` (app/model.py lines
182-194): train (propagating a raise with the globals untouched), publish
`_modelo`, `_modelo_accuracy`, `_modelo_timestamp`, then best-effort save. -/
def entrena_y_publica (env : Entorno) (s : EstadoModelo) (tr : List Evento) :
    (Except Unit Pipeline × EstadoModelo) × List Evento :=
  match entrenar_modelo_llamada env with
  | Except.error e => ((Except.error e, s), tr)
  | Except.ok (m, acc) =>
      ((Except.ok m,
        { modelo := some m, timestamp := some env.now, accuracy := some acc }),
       tr ++ [Evento.entrenamiento] ++ (if env.save_ok then [Evento.guardado] else []))

/-- Store accessor `get_modelo` (app/model.py lines 147-194).  Returns the result (or the
propagated exception), the globals after the call, and the trace of store
events the call performed.  If no reload is needed the cached `_modelo` is
returned; otherwise, when `os.path.exists(model_path)` holds the code
attempts `joblib.load` — on success it publishes the loaded model and stamps
`_modelo_timestamp = now` (leaving `_modelo_accuracy` untouched), on failure
it falls through to training; with no persisted file it trains directly. -/
def get_modelo (env : Entorno) (s : EstadoModelo) :
    (Except Unit Pipeline × EstadoModelo) × List Evento :=
  if necesita_recargar env s then
    if env.file_exists then
      match env.load_result with
      | some m =>
          ((Except.ok m,
            { modelo := some m, timestamp := some env.now, accuracy := s.accuracy }),
           [Evento.chequeo_recarga, Evento.carga_intentada, Evento.carga_exitosa])
      | none => entrena_y_publica env s [Evento.chequeo_recarga, Evento.carga_intentada]
    else entrena_y_publica env s [Evento.chequeo_recarga]
  else
    match s.modelo with
    | some m => ((Except.ok m, s), [Evento.chequeo_recarga])
    | none => ((Except.error (), s), [Evento.chequeo_recarga])

/-- Forced retrain `forzar_reentrenamiento` (app/model.py lines 273-297): always fetches
fresh data and retrains (never attempts a load), publishes the result,
best-effort saves, and reports `(samples_used, accuracy, timestamp)`. -/
def forzar_reentrenamiento (env : Entorno) (s : EstadoModelo) :
    (Except Unit (Nat × ℚ × ℚ) × EstadoModelo) × List Evento :=
  match entrenar_modelo_llamada env with
  | Except.error e => ((Except.error e, s), [])
  | Except.ok (m, acc) =>
      ((Except.ok (env.datos.length, acc, env.now),
        { modelo := some m, timestamp := some env.now, accuracy := some acc }),
       [Evento.entrenamiento] ++ (if env.save_ok then [Evento.guardado] else []))

/-- Single prediction `predecir` (app/model.py lines 197-224): obtain the current model via
`get_modelo`, then score the single feature row. -/
def predecir (env : Entorno) (s : EstadoModelo) (dias_transcurridos dias_umbral : ℚ)
    (id_rol : ℤ) :
    (Except Unit (ℚ × String × List String) × EstadoModelo) × List Evento :=
  match get_modelo env s with
  | ((Except.error e, s2), tr) => ((Except.error e, s2), tr)
  | ((Except.ok m, s2), tr) =>
      match predecir_con_modelo m dias_transcurridos dias_umbral id_rol with
      | none => ((Except.error (), s2), tr)
      | some res => ((Except.ok res, s2), tr)

/-- Python's `round(x, 4)`: round-half-to-even at four decimal places. -/
def round4 (x : ℚ) : ℚ :=
  let escalado : ℚ := x * 10000
  let piso : ℤ := ⌊escalado⌋
  let resto : ℚ := escalado - (piso : ℚ)
  let entero : ℤ :=
    if resto < 1 / 2 then piso
    else if 1 / 2 < resto then piso + 1
    else if piso % 2 = 0 then piso else piso + 1
  (entero : ℚ) / 10000

/-- Schema `PrediccionRequest` (app/schemas.py lines 9-14), before validation: the
raw body fields. -/
structure PrediccionRequest where
  id_solicitud : ℤ
  dias_transcurridos : ℚ
  dias_umbral : ℚ
  id_rol : ℤ

/-- The pydantic field constraints of `PrediccionRequest`:
`dias_transcurridos: Field(..., ge=0)` and `dias_umbral: Field(..., gt=0)`.
FastAPI checks them before the handler body runs. -/
def valida_PrediccionRequest (r : PrediccionRequest) : Bool :=
  decide (0 ≤ r.dias_transcurridos) && decide (0 < r.dias_umbral)

/-- The error classes an endpoint call can surface: a 422 request-validation
failure raised by FastAPI before the handler runs, or the catch-all 500 of
the handler's `except` block. -/
inductive ErrorHttp where
  | validacion
  | interno
deriving DecidableEq

/-- The fields of `PrediccionResponse` that `predecir_individual` fills
(app/main.py lines 160-166). -/
structure PrediccionResponse where
  id_solicitud : ℤ
  probabilidad_incumplimiento : ℚ
  nivel_riesgo : String
  factores_riesgo : List String

/-- The endpoint `predecir_individual` (app/main.py lines
143-169) including FastAPI's request validation against `PrediccionRequest`:
an invalid body is rejected with a 422 before the handler — and hence any
model interaction — runs; a valid body is scored and any exception becomes a
500. -/
def predecir_individual (env : Entorno) (s : EstadoModelo) (req : PrediccionRequest) :
    (Except ErrorHttp PrediccionResponse × EstadoModelo) × List Evento :=
  if valida_PrediccionRequest req then
    match predecir env s req.dias_transcurridos req.dias_umbral req.id_rol with
    | ((Except.error _, s2), tr) => ((Except.error ErrorHttp.interno, s2), tr)
    | ((Except.ok (prob, nivel, factores), s2), tr) =>
        ((Except.ok { id_solicitud := req.id_solicitud,
                      probabilidad_incumplimiento := round4 prob,
                      nivel_riesgo := nivel,
                      factores_riesgo := factores }, s2), tr)
  else ((Except.error ErrorHttp.validacion, s), [])

/-- One element of the `solicitudes` list consumed by `predecir_batch`
(the keys read at app/model.py lines 243-267). -/
structure Solicitud where
  id_solicitud : ℤ
  codigo_sla : Option String
  nombre_rol : Option String
  dias_restantes : Option ℤ
  dias_transcurridos : ℚ
  dias_umbral : ℚ
  id_rol : ℤ

/-- One element of the result list built at app/model.py lines 256-268. -/
structure ResultadoBatch where
  id_solicitud : ℤ
  codigo_sla : Option String
  nombre_rol : Option String
  probabilidad_incumplimiento : ℚ
  nivel_riesgo : String
  dias_restantes : Option ℤ
  factores_riesgo : List String

/-- Column count `probabilidades.shape[1]`: the column count of the (rectangular)
probability array, i.e. the length of its first row. -/
def shape1 (P : List (List ℚ)) : Nat :=
  match P with
  | [] => 0
  | fila :: _ => fila.length

/-- The column index chosen at app/model.py line 250:
`1 if probabilidades.shape[1] > 1 else 0`. -/
def columnaIncumplimiento (P : List (List ℚ)) : Nat :=
  if 1 < shape1 P then 1 else 0

/-- Column slice `probabilidades[:, j]`: the j-th column; `none` models the numpy
indexing error when a row lacks that column. -/
def columna (P : List (List ℚ)) (j : Nat) : Option (List ℚ) :=
  match P with
  | [] => some []
  | fila :: resto =>
      match fila.get? j, columna resto j with
      | some x, some xs => some (x :: xs)
      | _, _ => none

/-- The result dict built for one request row at app/model.py lines
256-268: the probability is rounded to 4 digits for the output field while
risk level and factors use the full-precision value. -/
def resultadoDe (sol : Solicitud) (prob : ℚ) : ResultadoBatch :=
  { id_solicitud := sol.id_solicitud,
    codigo_sla := sol.codigo_sla,
    nombre_rol := sol.nombre_rol,
    probabilidad_incumplimiento := round4 prob,
    nivel_riesgo := calcular_nivel_riesgo prob,
    dias_restantes := sol.dias_restantes,
    factores_riesgo := identificar_factores_riesgo
      sol.dias_transcurridos sol.dias_umbral prob }

/-- The scoring core of `predecir_batch` (app/model.py lines 242-270), given
the model handle obtained at line 240: build the feature matrix, extract the
breached-class probability column, and zip it back with the requests. -/
def predecir_batch_con_modelo (m : Pipeline) (solicitudes : List Solicitud) :
    Option (List ResultadoBatch) :=
  let X := solicitudes.map fun sol =>
    caracteristicas sol.dias_transcurridos sol.dias_umbral sol.id_rol
  let probabilidades := X.map m.rawProba
  match columna probabilidades (columnaIncumplimiento probabilidades) with
  | none => none
  | some probs => some (List.zipWith resultadoDe solicitudes probs)

/-- Batch entry point `predecir_batch` (app/model.py lines 227-270): an empty request list
returns `[]` at line 238, before `get_modelo()` is called at line 240. -/
def predecir_batch (env : Entorno) (s : EstadoModelo) (solicitudes : List Solicitud) :
    (Except Unit (List ResultadoBatch) × EstadoModelo) × List Evento :=
  if solicitudes.isEmpty then ((Except.ok [], s), [])
  else
    match get_modelo env s with
    | ((Except.error e, s2), tr) => ((Except.error e, s2), tr)
    | ((Except.ok m, s2), tr) =>
        match predecir_batch_con_modelo m solicitudes with
        | none => ((Except.error (), s2), tr)
        | some rs => ((Except.ok rs, s2), tr)

/-- Interleaved execution of two concurrent `get_modelo` callers over the
shared globals.  `get_modelo` takes no lock, so between the staleness check
(app/model.py lines 161-168), the `entrenar_modelo()` call (line 183) and
the assignment of the result to the globals (lines 183-184) any other
thread's steps may run — the hosting service dispatches handlers onto a
`ThreadPoolExecutor(max_workers=4)` (app/main.py line 51).  Each thread is
reduced to the path taken when no persisted artifact exists: program counter
0 = about to run the staleness check (returning at once if fresh),
1 = about to call `entrenar_modelo()`, 2 = training finished, about to
publish into the globals, 3 = returned. -/
structure EstadoConc where
  globales : EstadoModelo
  entrenamientos : Nat
  pc₁ : Nat
  pc₂ : Nat

/-- One atomic step of a single `get_modelo` caller at program counter `pc`:
returns the new globals, the new count of executed `entrenar_modelo` calls,
and the thread's next program counter. -/
def pasoHilo (env : Entorno) (g : EstadoModelo) (cuenta : Nat) (pc : Nat) :
    EstadoModelo × Nat × Nat :=
  match pc with
  | 0 => if necesita_recargar env g then (g, cuenta, 1) else (g, cuenta, 3)
  | 1 => (g, cuenta + 1, 2)
  | 2 => ({ modelo := some (entrenar_modelo env.sk env.datos).1,
            timestamp := some env.now,
            accuracy := some (entrenar_modelo env.sk env.datos).2 }, cuenta, 3)
  | _ => (g, cuenta, pc)

/-- Scheduler step: `true` steps the first caller, `false` the second. -/
def pasoSistema (env : Entorno) (st : EstadoConc) (hilo : Bool) : EstadoConc :=
  if hilo then
    match pasoHilo env st.globales st.entrenamientos st.pc₁ with
    | (g, c, pc) => { st with globales := g, entrenamientos := c, pc₁ := pc }
  else
    match pasoHilo env st.globales st.entrenamientos st.pc₂ with
    | (g, c, pc) => { st with globales := g, entrenamientos := c, pc₂ := pc }

/-- Run a schedule (a list of scheduler choices) from a starting state. -/
def ejecuta (env : Entorno) (agenda : List Bool) (st : EstadoConc) : EstadoConc :=
  agenda.foldl (pasoSistema env) st

/-- Both callers start before their staleness checks, with the process
freshly started: no model, no timestamp, nothing trained yet. -/
def estadoConcInicial : EstadoConc :=
  { globales := { modelo := none, timestamp := none, accuracy := none },
    entrenamientos := 0, pc₁ := 0, pc₂ := 0 }

/-- The racing schedule: both callers pass the staleness check before either
has published, then each trains and publishes. -/
def agendaCarrera : List Bool := [true, false, true, true, false, false]

/-- A serialized schedule: the first caller runs to completion before the
second starts. -/
def agendaSecuencial : List Bool := [true, true, true, false]

/-- A concrete stand-in for the scikit-learn library, used by the witness
instantiations: the fitted model returns the uniform distribution over the
classes seen in training (so the shape contract `FormaFit` holds), the
splitter keeps everything in the training part, and hard prediction is
constantly 0. -/
def skEjemplo : SklearnLib :=
  { fit := fun _ y => fun _ => y.dedup.map (fun _ => 1 / (y.dedup.length : ℚ)),
    split := fun X y => (X, [], y, []),
    predictClase := fun _ _ => 0 }

/-- A concrete environment: clock at 1000000 s, TTL 3600 s, no persisted
artifact, empty training data, no library failures. -/
def envEjemplo : Entorno :=
  { now := 1000000, model_reload_interval := 3600, file_exists := false,
    load_result := none, sk := skEjemplo, datos := [], entrenar_lanza := false,
    save_ok := true }

/-- The bootstrap pipeline produced by `entrenar_modelo` on empty data with
the example library. -/
def modeloEjemplo : Pipeline := (entrenar_modelo skEjemplo []).1

/-- Globals holding a published model whose timestamp (0) is long expired at
`envEjemplo.now`. -/
def estadoConModelo : EstadoModelo :=
  { modelo := some modeloEjemplo, timestamp := some 0, accuracy := some 1 }

/-- Environment `envEjemplo` with a persisted artifact present and loadable. -/
def envConArchivo : Entorno :=
  { envEjemplo with file_exists := true, load_result := some modeloEjemplo }

/-- Environment `envEjemplo` with the underlying fit raising inside `entrenar_modelo`. -/
def envFalloEntrenamiento : Entorno :=
  { envEjemplo with entrenar_lanza := true }

/-- A two-class fitted pipeline with explicit per-class probabilities. -/
def modeloDosClases : Pipeline :=
  { X_fit := [[1, 5, 1], [2, 5, 1]], y_fit := [0, 1],
    rawProba := fun _ => [3 / 10, 7 / 10] }

/-- A single-class fitted pipeline. -/
def modeloUnaClase : Pipeline :=
  { X_fit := [[1, 5, 1], [2, 5, 1]], y_fit := [1, 1],
    rawProba := fun _ => [1] }

/-- A concrete batch request row. -/
def solEjemplo : Solicitud :=
  { id_solicitud := 7, codigo_sla := some "SLA-001", nombre_rol := some "Analista",
    dias_restantes := some 2, dias_transcurridos := 9, dias_umbral := 10, id_rol := 1 }

/-- A second concrete batch request row. -/
def solEjemplo₂ : Solicitud :=
  { id_solicitud := 8, codigo_sla := none, nombre_rol := none,
    dias_restantes := none, dias_transcurridos := 1, dias_umbral := 2, id_rol := 3 }

/-- A request body with `dias_umbral = 0`, violating `Field(..., gt=0)`. -/
def reqUmbralCero : PrediccionRequest :=
  { id_solicitud := 1, dias_transcurridos := 1, dias_umbral := 0, id_rol := 1 }

end SLA

namespace SLA

/-- C1: the risk classifier returns CRITICO iff p ≥ 0.80, ALTO iff
0.60 ≤ p < 0.80, MEDIO iff 0.40 ≤ p < 0.60, BAJO iff p < 0.40; each band is
inclusive on its lower bound, no other level is ever returned, and the six
boundary inputs evaluate as the spec lists them (CRITICO/ALTO/MEDIO/BAJO are
the source's names for CRITICAL/HIGH/MEDIUM/LOW). -/
theorem C1_niveles_riesgo (p : ℚ) :
    (calcular_nivel_riesgo p = "CRITICO" ↔ 0.8 ≤ p) ∧
    (calcular_nivel_riesgo p = "ALTO" ↔ 0.6 ≤ p ∧ p < 0.8) ∧
    (calcular_nivel_riesgo p = "MEDIO" ↔ 0.4 ≤ p ∧ p < 0.6) ∧
    (calcular_nivel_riesgo p = "BAJO" ↔ p < 0.4) ∧
    (calcular_nivel_riesgo p = "CRITICO" ∨ calcular_nivel_riesgo p = "ALTO" ∨
      calcular_nivel_riesgo p = "MEDIO" ∨ calcular_nivel_riesgo p = "BAJO") ∧
    calcular_nivel_riesgo 0.8 = "CRITICO" ∧
    calcular_nivel_riesgo 0.7999 = "ALTO" ∧
    calcular_nivel_riesgo 0.6 = "ALTO" ∧
    calcular_nivel_riesgo 0.5999 = "MEDIO" ∧
    calcular_nivel_riesgo 0.4 = "MEDIO" ∧
    calcular_nivel_riesgo 0.3999 = "BAJO" := by
  refine ⟨?_, ?_, ?_, ?_, ?_, by norm_num [calcular_nivel_riesgo],
    by norm_num [calcular_nivel_riesgo], by norm_num [calcular_nivel_riesgo],
    by norm_num [calcular_nivel_riesgo], by norm_num [calcular_nivel_riesgo],
    by norm_num [calcular_nivel_riesgo]⟩ <;>
    · unfold calcular_nivel_riesgo
      split_ifs with h1 h2 h3 <;> simp_all <;>
        first
          | linarith
          | (intros; linarith)
          | (constructor <;> intros <;> linarith)

/-- C4: for elapsed_days ≥ 0 and threshold_days > 0, the factor list contains
the ≥90% time factor iff time_used_pct ≥ 90, the ≥70% factor iff
70 ≤ time_used_pct < 90 (never both), the high-probability factor iff
p ≥ 0.80, the short-window factor iff threshold_days ≤ 3; the list is always
a sublist of the four factors in fixed rule order; and the two spec examples
evaluate as stated. -/
theorem C4_factores_riesgo (d u p : ℚ) (hd : 0 ≤ d) (hu : 0 < u) :
    ("Tiempo casi agotado (>90%)" ∈ identificar_factores_riesgo d u p ↔
        90 ≤ d / u * 100) ∧
    ("Tiempo elevado (>70%)" ∈ identificar_factores_riesgo d u p ↔
        70 ≤ d / u * 100 ∧ d / u * 100 < 90) ∧
    ¬("Tiempo casi agotado (>90%)" ∈ identificar_factores_riesgo d u p ∧
        "Tiempo elevado (>70%)" ∈ identificar_factores_riesgo d u p) ∧
    ("Alta probabilidad histórica de incumplimiento" ∈
        identificar_factores_riesgo d u p ↔ 0.8 ≤ p) ∧
    ("SLA con umbral muy corto" ∈ identificar_factores_riesgo d u p ↔ u ≤ 3) ∧
    List.Sublist (identificar_factores_riesgo d u p)
      ["Tiempo casi agotado (>90%)", "Tiempo elevado (>70%)",
        "Alta probabilidad histórica de incumplimiento", "SLA con umbral muy corto"] ∧
    identificar_factores_riesgo 9 10 0.85 =
      ["Tiempo casi agotado (>90%)", "Alta probabilidad histórica de incumplimiento"] ∧
    identificar_factores_riesgo 1 2 0.2 = ["SLA con umbral muy corto"] := by
  have h9 : identificar_factores_riesgo 9 10 0.85 =
      ["Tiempo casi agotado (>90%)", "Alta probabilidad histórica de incumplimiento"] := by
    norm_num [identificar_factores_riesgo]
  have h1 : identificar_factores_riesgo 1 2 0.2 = ["SLA con umbral muy corto"] := by
    norm_num [identificar_factores_riesgo]
  have key : identificar_factores_riesgo d u p =
      (if 90 ≤ d / u * 100 then ["Tiempo casi agotado (>90%)"]
        else if 70 ≤ d / u * 100 then ["Tiempo elevado (>70%)"] else []) ++
      (if 0.8 ≤ p then ["Alta probabilidad histórica de incumplimiento"] else []) ++
      (if u ≤ 3 then ["SLA con umbral muy corto"] else []) := by
    unfold identificar_factores_riesgo
    simp only [gt_iff_lt, hu, ite_true, ge_iff_le]
  refine ⟨?_, ?_, ?_, ?_, ?_, ?_, h9, h1⟩ <;>
    · rw [key]
      split_ifs <;> simp_all <;>
        first
          | linarith
          | (intros; linarith)
          | (constructor <;> intros <;> linarith)
          | decide

/-- Witness for C4 at the spec's first example input. -/
theorem C4_factores_riesgo_witness :
    identificar_factores_riesgo 9 10 0.85 =
      ["Tiempo casi agotado (>90%)", "Alta probabilidad histórica de incumplimiento"] :=
  (C4_factores_riesgo 9 10 0.85 (by norm_num) (by norm_num)).2.2.2.2.2.2.1

/-- C10: batch prediction on the empty input list returns the empty list at
once, leaves the globals untouched, and performs no store event — no
staleness check, no load attempt, no retrain. -/
theorem C10_batch_vacio (env : Entorno) (s : EstadoModelo) :
    predecir_batch env s [] = ((Except.ok [], s), []) := by
  simp [predecir_batch]

/-- C2: a request with `dias_umbral ≤ 0` is rejected as a validation failure
(HTTP 422) before the handler runs: the globals are untouched and no store
event — in particular no model interaction — occurs, and no prediction is
produced. -/
theorem C2_umbral_no_positivo (env : Entorno) (s : EstadoModelo)
    (req : PrediccionRequest) (h : req.dias_umbral ≤ 0) :
    (predecir_individual env s req).1.1 = Except.error ErrorHttp.validacion ∧
    (predecir_individual env s req).1.2 = s ∧
    (predecir_individual env s req).2 = [] := by
  have hnot : ¬ (0 < req.dias_umbral) := not_lt.mpr h
  have hv : valida_PrediccionRequest req = false := by
    simp [valida_PrediccionRequest, hnot]
  refine ⟨?_, ?_, ?_⟩ <;> simp [predecir_individual, hv]

/-- Witness for C2 at `dias_umbral = 0`. -/
theorem C2_umbral_no_positivo_witness :
    (predecir_individual envEjemplo estadoConModelo reqUmbralCero).1.1 =
      Except.error ErrorHttp.validacion ∧
    (predecir_individual envEjemplo estadoConModelo reqUmbralCero).1.2 = estadoConModelo ∧
    (predecir_individual envEjemplo estadoConModelo reqUmbralCero).2 = [] :=
  C2_umbral_no_positivo envEjemplo estadoConModelo reqUmbralCero
    (by norm_num [reqUmbralCero])

/-- C9: when the underlying fit raises during a reload attempt, the error
propagates out of `get_modelo` (and out of `forzar_reentrenamiento`) for
that attempt while the previously published globals — model, timestamp and
accuracy — remain exactly as they were; in particular a previously
published model is still there. -/
theorem C9_fallo_entrenamiento (env : Entorno) (s : EstadoModelo)
    (h1 : necesita_recargar env s = true)
    (h2 : env.file_exists = false ∨ env.load_result = none)
    (h3 : env.entrenar_lanza = true) :
    (get_modelo env s).1.1 = Except.error () ∧
    (get_modelo env s).1.2 = s ∧
    (forzar_reentrenamiento env s).1.1 = Except.error () ∧
    (forzar_reentrenamiento env s).1.2 = s := by
  have hll : entrenar_modelo_llamada env = Except.error () := by
    simp [entrenar_modelo_llamada, h3]
  have hget : (get_modelo env s).1 = (Except.error (), s) := by
    rcases h2 with h2 | h2
    · simp [get_modelo, h1, h2, entrena_y_publica, hll]
    · cases hf : env.file_exists
      · simp [get_modelo, h1, hf, entrena_y_publica, hll]
      · simp [get_modelo, h1, hf, h2, entrena_y_publica, hll]
  exact ⟨by rw [hget], by rw [hget], by simp [forzar_reentrenamiento, hll],
    by simp [forzar_reentrenamiento, hll]⟩

/-- Witness for C9: a raising fit with a stale published model in memory. -/
theorem C9_fallo_entrenamiento_witness :
    (get_modelo envFalloEntrenamiento estadoConModelo).1.1 = Except.error () ∧
    (get_modelo envFalloEntrenamiento estadoConModelo).1.2 = estadoConModelo ∧
    (forzar_reentrenamiento envFalloEntrenamiento estadoConModelo).1.1 = Except.error () ∧
    (forzar_reentrenamiento envFalloEntrenamiento estadoConModelo).1.2 = estadoConModelo :=
  C9_fallo_entrenamiento envFalloEntrenamiento estadoConModelo
    (by simp [necesita_recargar, envFalloEntrenamiento, envEjemplo, estadoConModelo]
        norm_num)
    (Or.inl (by simp [envFalloEntrenamiento, envEjemplo]))
    (by simp [envFalloEntrenamiento, envEjemplo])

/-- Counterexample to C8 as stated: with a model already in memory (merely
stale) and a persisted artifact present, the reload still attempts the load
— the code's guard at app/model.py line 173 is `os.path.exists(model_path)`,
not "no model in memory yet". -/
theorem C8_contraejemplo :
    estadoConModelo.modelo.isSome = true ∧
    Evento.carga_intentada ∈ (get_modelo envConArchivo estadoConModelo).2 := by
  have h1 : necesita_recargar envConArchivo estadoConModelo = true := by
    simp [necesita_recargar, envConArchivo, envEjemplo, estadoConModelo]
    norm_num
  have he : envConArchivo.file_exists = true := rfl
  have hl : envConArchivo.load_result = some modeloEjemplo := rfl
  exact ⟨rfl, by simp [get_modelo, h1, he, hl]⟩

/-- C8 (amended): on a reload triggered by `current()`, the store attempts
to load the persisted artifact whenever the artifact file exists —
regardless of whether a model is already in memory — and when loading
succeeds it adopts the loaded model and stamps `trained_at = now` (keeping
the previous accuracy), deferring the artifact's real staleness to the next
reload cycle. -/
theorem C8_recarga_con_archivo (env : Entorno) (s : EstadoModelo) (m : Pipeline)
    (h1 : necesita_recargar env s = true) (h2 : env.file_exists = true)
    (h3 : env.load_result = some m) :
    Evento.carga_intentada ∈ (get_modelo env s).2 ∧
    (get_modelo env s).1 = (Except.ok m,
      { modelo := some m, timestamp := some env.now, accuracy := s.accuracy }) := by
  simp [get_modelo, h1, h2, h3]

/-- Witness for the amended C8: stale model in memory, loadable artifact. -/
theorem C8_recarga_con_archivo_witness :
    Evento.carga_intentada ∈ (get_modelo envConArchivo estadoConModelo).2 ∧
    (get_modelo envConArchivo estadoConModelo).1 = (Except.ok modeloEjemplo,
      { modelo := some modeloEjemplo, timestamp := some envConArchivo.now,
        accuracy := estadoConModelo.accuracy }) :=
  C8_recarga_con_archivo envConArchivo estadoConModelo modeloEjemplo
    (by simp [necesita_recargar, envConArchivo, envEjemplo, estadoConModelo]
        norm_num)
    (by simp [envConArchivo, envEjemplo])
    (by simp [envConArchivo, envEjemplo])

/-- Helper: `get?` at an index below the length yields `some` of the `getD`
value. -/
theorem get?_eq_some_getD (l : List ℚ) (n : Nat) (d : ℚ) (h : n < l.length) :
    l.get? n = some (l.getD n d) := by
  rw [List.getD_eq_getElem l d h, List.get?_eq_getElem?]
  exact List.getElem?_eq_getElem h

/-- Helper: the `getElem?` form of the previous lemma. -/
theorem getElem?_eq_some_getD (l : List ℚ) (n : Nat) (d : ℚ) (h : n < l.length) :
    l[n]? = some (l.getD n d) := by
  rw [List.getD_eq_getElem l d h]
  exact List.getElem?_eq_getElem h

/-- Helper: zipping a list with a pointwise image of itself is a map. -/
theorem zipWith_map_misma {α β γ : Type} (f : α → β → γ) (g : α → β) (l : List α) :
    List.zipWith f l (l.map g) = l.map fun a => f a (g a) := by
  induction l with
  | nil => rfl
  | cons a t ih => simp [ih]

/-- Helper: column extraction over a mapped matrix succeeds when every row
is long enough, and yields the per-row `getD`. -/
theorem columna_map_getD (g : List ℚ → List ℚ) (j : Nat) (l : List (List ℚ))
    (h : ∀ x ∈ l, j < (g x).length) :
    columna (l.map g) j = some (l.map fun x => (g x).getD j 0) := by
  induction l with
  | nil => rfl
  | cons a t ih =>
      have ha := getElem?_eq_some_getD (g a) j 0 (h a (by simp))
      have ht := ih (fun x hx => h x (by simp [hx]))
      simp only [List.map_cons, columna, List.get?_eq_getElem?]
      rw [ha, ht]

/-- C3: training on fewer than 50 records returns the bootstrap pipeline
fitted on the fixed hard-coded 5-row synthetic dataset — three rows labeled
0 (not breached), two labeled 1 (breached), with strictly increasing
elapsed-day values 1..5 — with reported accuracy exactly 0, and (given the
library's `predict_proba` shape contract) the returned model answers a
single prediction without error. -/
theorem C3_modelo_bootstrap (sk : SklearnLib) (datos : List RegistroEntrenamiento)
    (hlen : datos.length < 50) (hfit : FormaFit sk) :
    entrenar_modelo sk datos =
      ({ X_fit := X_dummy, y_fit := y_dummy, rawProba := sk.fit X_dummy y_dummy }, 0) ∧
    y_dummy.count 0 = 3 ∧
    y_dummy.count 1 = 2 ∧
    X_dummy.map (fun fila => fila.getD 0 0) = [1, 2, 3, 4, 5] ∧
    List.Chain' (· < ·) (X_dummy.map (fun fila => fila.getD 0 0)) ∧
    ∀ (d u : ℚ) (r : ℤ),
      (predecir_con_modelo (entrenar_modelo sk datos).1 d u r).isSome = true := by
  have hm : entrenar_modelo sk datos =
      ({ X_fit := X_dummy, y_fit := y_dummy, rawProba := sk.fit X_dummy y_dummy }, 0) := by
    simp [entrenar_modelo, hlen]
  have hmap : X_dummy.map (fun fila => fila.getD 0 0) = ([1, 2, 3, 4, 5] : List ℚ) := by
    norm_num [X_dummy]
  refine ⟨hm, by first | decide | norm_num [y_dummy, List.count_cons, List.count_nil],
    by first | decide | norm_num [y_dummy, List.count_cons, List.count_nil],
    hmap, ?_, ?_⟩
  · rw [hmap]
    norm_num [List.chain'_cons]
  · intro d u r
    rw [hm]
    have hl : (sk.fit X_dummy y_dummy (caracteristicas d u r)).length = 2 := by
      rw [hfit]
      first | rfl | decide | norm_num [y_dummy]
    have h1l : 1 < (sk.fit X_dummy y_dummy (caracteristicas d u r)).length := by omega
    have hget := get?_eq_some_getD (sk.fit X_dummy y_dummy (caracteristicas d u r)) 1 0 h1l
    simp [predecir_con_modelo, extraerProbabilidad, h1l, hget]

/-- Witness for C3: empty training data with the example library. -/
theorem C3_modelo_bootstrap_witness :
    entrenar_modelo skEjemplo [] =
      ({ X_fit := X_dummy, y_fit := y_dummy, rawProba := skEjemplo.fit X_dummy y_dummy }, 0) ∧
    (predecir_con_modelo (entrenar_modelo skEjemplo []).1 1 5 1).isSome = true := by
  have h := C3_modelo_bootstrap skEjemplo [] (by norm_num)
    (by intro X y x; simp [skEjemplo])
  exact ⟨h.1, h.2.2.2.2.2 1 5 1⟩

/-- C5: under the library's `predict_proba` shape contract, both single and
batch prediction extract the breached-class probability at column index 1
when the classifier was trained on both classes (at least two), and fall
back to column index 0 when it was trained on a single class; the single
prediction's risk level and factors are derived from that same value. -/
theorem C5_extraccion_probabilidad (m : Pipeline) (d u : ℚ) (r : ℤ)
    (sols : List Solicitud) (hforma : FormaProba m) (hsols : sols ≠ []) :
    (2 ≤ numClasses m →
      predecir_con_modelo m d u r =
        some ((m.rawProba (caracteristicas d u r)).getD 1 0,
          calcular_nivel_riesgo ((m.rawProba (caracteristicas d u r)).getD 1 0),
          identificar_factores_riesgo d u
            ((m.rawProba (caracteristicas d u r)).getD 1 0)) ∧
      columnaIncumplimiento ((sols.map fun sol =>
        caracteristicas sol.dias_transcurridos sol.dias_umbral sol.id_rol).map
          m.rawProba) = 1) ∧
    (numClasses m = 1 →
      predecir_con_modelo m d u r =
        some ((m.rawProba (caracteristicas d u r)).getD 0 0,
          calcular_nivel_riesgo ((m.rawProba (caracteristicas d u r)).getD 0 0),
          identificar_factores_riesgo d u
            ((m.rawProba (caracteristicas d u r)).getD 0 0)) ∧
      columnaIncumplimiento ((sols.map fun sol =>
        caracteristicas sol.dias_transcurridos sol.dias_umbral sol.id_rol).map
          m.rawProba) = 0) := by
  have hfila := hforma (caracteristicas d u r)
  constructor
  · intro h2
    have h1l : 1 < (m.rawProba (caracteristicas d u r)).length := by omega
    have hv := getElem?_eq_some_getD (m.rawProba (caracteristicas d u r)) 1 0 h1l
    refine ⟨by
      simp only [predecir_con_modelo, extraerProbabilidad, if_pos h1l,
        List.get?_eq_getElem?, hv], ?_⟩
    cases sols with
    | nil => exact absurd rfl hsols
    | cons s t =>
        have hs : shape1 (((s :: t).map fun sol =>
            caracteristicas sol.dias_transcurridos sol.dias_umbral sol.id_rol).map
              m.rawProba) = numClasses m := by
          simp only [List.map_cons, shape1]
          exact hforma _
        simp only [columnaIncumplimiento, hs]
        rw [if_pos (by omega)]
  · intro h1
    have h1l : ¬ (1 < (m.rawProba (caracteristicas d u r)).length) := by omega
    have h0l : 0 < (m.rawProba (caracteristicas d u r)).length := by omega
    have hv := getElem?_eq_some_getD (m.rawProba (caracteristicas d u r)) 0 0 h0l
    refine ⟨by
      simp only [predecir_con_modelo, extraerProbabilidad, if_neg h1l,
        List.get?_eq_getElem?, hv], ?_⟩
    cases sols with
    | nil => exact absurd rfl hsols
    | cons s t =>
        have hs : shape1 (((s :: t).map fun sol =>
            caracteristicas sol.dias_transcurridos sol.dias_umbral sol.id_rol).map
              m.rawProba) = numClasses m := by
          simp only [List.map_cons, shape1]
          exact hforma _
        simp only [columnaIncumplimiento, hs]
        rw [if_neg (by omega)]

/-- Witness for C5 at a two-class and a one-class concrete pipeline. -/
theorem C5_extraccion_probabilidad_witness :
    (predecir_con_modelo modeloDosClases 9 10 1 =
      some ((modeloDosClases.rawProba (caracteristicas 9 10 1)).getD 1 0,
        calcular_nivel_riesgo ((modeloDosClases.rawProba (caracteristicas 9 10 1)).getD 1 0),
        identificar_factores_riesgo 9 10
          ((modeloDosClases.rawProba (caracteristicas 9 10 1)).getD 1 0)) ∧
     columnaIncumplimiento (([solEjemplo].map fun sol =>
        caracteristicas sol.dias_transcurridos sol.dias_umbral sol.id_rol).map
          modeloDosClases.rawProba) = 1) ∧
    (predecir_con_modelo modeloUnaClase 9 10 1 =
      some ((modeloUnaClase.rawProba (caracteristicas 9 10 1)).getD 0 0,
        calcular_nivel_riesgo ((modeloUnaClase.rawProba (caracteristicas 9 10 1)).getD 0 0),
        identificar_factores_riesgo 9 10
          ((modeloUnaClase.rawProba (caracteristicas 9 10 1)).getD 0 0)) ∧
     columnaIncumplimiento (([solEjemplo].map fun sol =>
        caracteristicas sol.dias_transcurridos sol.dias_umbral sol.id_rol).map
          modeloUnaClase.rawProba) = 0) := by
  have hdos := C5_extraccion_probabilidad modeloDosClases 9 10 1 [solEjemplo]
    (fun x => rfl) (by simp)
  have huna := C5_extraccion_probabilidad modeloUnaClase 9 10 1 [solEjemplo]
    (fun x => rfl) (by simp)
  exact ⟨hdos.1 (by decide), huna.2 (by decide)⟩

/-- C6: under the shape contract, batch prediction succeeds and returns
exactly one result per input element, in the same order: the result list is
the input list mapped elementwise through the per-request scoring at the
chosen probability column. -/
theorem C6_batch_orden (m : Pipeline) (sols : List Solicitud)
    (hforma : FormaProba m) (hn : 1 ≤ numClasses m) :
    predecir_batch_con_modelo m sols =
      some (sols.map fun sol => resultadoDe sol
        ((m.rawProba (caracteristicas sol.dias_transcurridos sol.dias_umbral
            sol.id_rol)).getD
          (columnaIncumplimiento ((sols.map fun sol =>
            caracteristicas sol.dias_transcurridos sol.dias_umbral sol.id_rol).map
              m.rawProba)) 0)) ∧
    (predecir_batch_con_modelo m sols).map List.length = some sols.length := by
  have hj : columnaIncumplimiento ((sols.map fun sol =>
      caracteristicas sol.dias_transcurridos sol.dias_umbral sol.id_rol).map
        m.rawProba) < numClasses m := by
    cases sols with
    | nil =>
        simp only [List.map_nil, columnaIncumplimiento, shape1]
        rw [if_neg (by omega)]
        omega
    | cons s t =>
        have hs : shape1 (((s :: t).map fun sol =>
            caracteristicas sol.dias_transcurridos sol.dias_umbral sol.id_rol).map
              m.rawProba) = numClasses m := by
          simp only [List.map_cons, shape1]
          exact hforma _
        simp only [columnaIncumplimiento, hs]
        split_ifs <;> omega
  have hcol := columna_map_getD m.rawProba
    (columnaIncumplimiento ((sols.map fun sol =>
      caracteristicas sol.dias_transcurridos sol.dias_umbral sol.id_rol).map
        m.rawProba))
    (sols.map fun sol =>
      caracteristicas sol.dias_transcurridos sol.dias_umbral sol.id_rol)
    (by intro x hx; rw [hforma]; exact hj)
  have hfull : predecir_batch_con_modelo m sols =
      some (sols.map fun sol => resultadoDe sol
        ((m.rawProba (caracteristicas sol.dias_transcurridos sol.dias_umbral
            sol.id_rol)).getD
          (columnaIncumplimiento ((sols.map fun sol =>
            caracteristicas sol.dias_transcurridos sol.dias_umbral sol.id_rol).map
              m.rawProba)) 0)) := by
    simp only [predecir_batch_con_modelo, hcol]
    rw [List.map_map, zipWith_map_misma]
    simp [Function.comp]
  exact ⟨hfull, by rw [hfull]; simp⟩

/-- Witness for C6 on a concrete two-element batch. -/
theorem C6_batch_orden_witness :
    predecir_batch_con_modelo modeloDosClases [solEjemplo, solEjemplo₂] =
      some [resultadoDe solEjemplo (7 / 10), resultadoDe solEjemplo₂ (7 / 10)] ∧
    (predecir_batch_con_modelo modeloDosClases [solEjemplo, solEjemplo₂]).map
      List.length = some 2 := by
  have h := C6_batch_orden modeloDosClases [solEjemplo, solEjemplo₂]
    (fun x => rfl) (by decide)
  refine ⟨?_, by simpa using h.2⟩
  rw [h.1]
  simp [modeloDosClases, columnaIncumplimiento, shape1,
    List.getD_cons_succ, List.getD_cons_zero]

/-- C7 (demonstrating the code's behavior, against the claim): `get_modelo`
takes no lock, so two callers that both observe staleness before either has
published each run `entrenar_modelo` — the racing schedule executes two
retrains, where the claim mandates exactly one (single-flight); under a
serialized schedule the same two callers perform exactly one retrain, the
second being served by the published model. -/
theorem C7_carrera_reentrenamiento :
    (ejecuta envEjemplo agendaCarrera estadoConcInicial).entrenamientos = 2 ∧
    (ejecuta envEjemplo agendaCarrera estadoConcInicial).pc₁ = 3 ∧
    (ejecuta envEjemplo agendaCarrera estadoConcInicial).pc₂ = 3 ∧
    (ejecuta envEjemplo agendaSecuencial estadoConcInicial).entrenamientos = 1 ∧
    (ejecuta envEjemplo agendaSecuencial estadoConcInicial).pc₁ = 3 ∧
    (ejecuta envEjemplo agendaSecuencial estadoConcInicial).pc₂ = 3 := by
  refine ⟨?_, ?_, ?_, ?_, ?_, ?_⟩ <;>
    norm_num [ejecuta, List.foldl, agendaCarrera, agendaSecuencial,
      estadoConcInicial, pasoSistema, pasoHilo, necesita_recargar, envEjemplo]

end SLA
